import Mathlib

/-!
Shallow embedding of the twentytwenty eye-break timer (src/twentytwenty.py).

The program is a Qt system-tray application: a `TwentyTwentyApp` tray
controller holding `timer_running`, `minutes_remaining` and a periodic
`main_timer`, and a `BreakDialog` with a one-second countdown timer and a
`QTimer.singleShot(2000, self.accept)` grace-period auto-close.

Modelling conventions:
- Python ints are `Int`; QColor values are RGB triples of `Nat`.
- Qt timers are modelled explicitly: the main timer as
  `main_timer_interval : Option Nat` (`none` = stopped, `some ms` = running
  with that interval), the dialog countdown as `countdown_active : Bool`,
  and the pending `singleShot` as `pending_accept_in : Option Nat`
  (number of one-second steps until it fires).
- Signal/slot connections are same-thread direct connections in the source,
  so `emit` is modelled as a synchronous call of the connected slot; emitted
  signals are additionally recorded in an event list for observation.
- `QDialog.accept` sets the result and hides the dialog (`closed := true`)
  and emits `finished`; it does not stop the dialog's countdown timer
  (the source never stops `countdown_timer` on the early-dismiss path).
-/

namespace TwentyTwenty

/-- RGB colour triple, mirroring the `QColor(r, g, b)` constructor calls. -/
abbrev RGB := Nat × Nat × Nat

/-- QColor(46, 52, 64): dark blue-gray background when active. -/
def darkBackground : RGB := (46, 52, 64)

/-- QColor(255, 255, 255): white background when inactive. -/
def whiteBackground : RGB := (255, 255, 255)

/-- QColor(136, 136, 136): gray text when inactive. -/
def grayText : RGB := (136, 136, 136)

/-- QColor(255, 68, 68): bright red when urgent. -/
def redText : RGB := (255, 68, 68)

/-- QColor(255, 170, 68): bright orange when warning. -/
def orangeText : RGB := (255, 170, 68)

/-- QColor(68, 255, 68): bright green when plenty of time. -/
def greenText : RGB := (68, 255, 68)

/-- The observable content of the tray icon pixmap: its fill colour, the
pen colour of the text, and the text drawn (`str(minutes_remaining)`). -/
structure TrayIcon where
  background : RGB
  pen : RGB
  text : String
deriving DecidableEq, Repr

/-- `TwentyTwentyApp.create_tray_icon` (src/twentytwenty.py:47-73).
It reads `self.timer_running` and its `minutes_remaining` argument only,
so it is embedded as a pure function of those two values. -/
def create_tray_icon (timer_running : Bool) (minutes_remaining : Int) : TrayIcon :=
  let background := if timer_running then darkBackground else whiteBackground
  let pen :=
    if !timer_running then grayText
    else if minutes_remaining ≤ 5 then redText
    else if minutes_remaining ≤ 10 then orangeText
    else greenText
  { background := background, pen := pen, text := toString minutes_remaining }

/-- State of one `BreakDialog` object (src/twentytwenty.py:189-241). -/
structure BreakDialogState where
  seconds_remaining : Int
  /-- whether `countdown_timer` is running -/
  countdown_active : Bool
  countdown_label : String
  done_button_text : String
  /-- a pending `QTimer.singleShot(2000, self.accept)`: fires after this
  many further one-second steps -/
  pending_accept_in : Option Nat
  /-- whether `accept` has been called (dialog result set and window hidden) -/
  closed : Bool
deriving DecidableEq, Repr

/-- `BreakDialog.__init__` together with `setup_ui`
(src/twentytwenty.py:192-228): 20 seconds remaining, label
"20 seconds remaining", button "Done Early", countdown timer started. -/
def newBreakDialog : BreakDialogState :=
  { seconds_remaining := 20
    countdown_active := true
    countdown_label := "20 seconds remaining"
    done_button_text := "Done Early"
    pending_accept_in := none
    closed := false }

/-- `QDialog.accept`: sets the result and hides the dialog. It does not
touch the countdown timer. The `finished` signal it emits is handled at
the application level. -/
def accept (d : BreakDialogState) : BreakDialogState :=
  { d with closed := true }

/-- `BreakDialog.countdown_tick` (src/twentytwenty.py:230-241). -/
def countdown_tick (d : BreakDialogState) : BreakDialogState :=
  let r := d.seconds_remaining - 1
  if r ≤ 0 then
    { d with seconds_remaining := r
             countdown_active := false
             countdown_label := "Break complete!"
             done_button_text := "Start Next Timer"
             pending_accept_in := some 2 }
  else
    { d with seconds_remaining := r
             countdown_label := toString r ++ " seconds remaining" }

/-- Advance the pending `singleShot` by one second; when it fires it calls
`accept`. Returns the new dialog state and whether it fired (so the
application level can run the `finished` handler). -/
def stepPending (d : BreakDialogState) : BreakDialogState × Bool :=
  match d.pending_accept_in with
  | none => (d, false)
  | some 0 => ({ d with pending_accept_in := none }, false)
  | some 1 => ({ accept d with pending_accept_in := none }, true)
  | some (n + 2) => ({ d with pending_accept_in := some (n + 1) }, false)

/-- One second of wall-clock time for a dialog object: the pending
`singleShot` (scheduled in an earlier second) is advanced first, then the
countdown timer fires if it is still running. -/
def dialogStepF (d : BreakDialogState) : BreakDialogState × Bool :=
  let p := stepPending d
  let d1 := if p.1.countdown_active then countdown_tick p.1 else p.1
  (d1, p.2)

/-- One second of wall-clock time for a dialog, dialog state only. -/
def dialogStep (d : BreakDialogState) : BreakDialogState :=
  (dialogStepF d).1

/-- `n` seconds of wall-clock time for a dialog. -/
def dialogStepN : Nat → BreakDialogState → BreakDialogState
  | 0, d => d
  | n + 1, d => dialogStepN n (dialogStep d)

/-- Observable signal emissions / object creations, recorded by the step
functions so that claims about "exactly one signal" can be stated. -/
inductive Event where
  | timer_update (minutes : Int)
  | break_time
  | dialog_created
  | finished
deriving DecidableEq, Repr

/-- State of the `TwentyTwentyApp` tray controller. `leaked` holds
`BreakDialog` objects that are no longer referenced by `break_dialog` but
are kept alive by a pending `singleShot` slot reference (CPython reference
counting destroys an unreferenced dialog immediately otherwise). -/
structure AppState where
  timer_running : Bool
  minutes_remaining : Int
  /-- `main_timer`: `none` when stopped, `some ms` when started with
  interval `ms` -/
  main_timer_interval : Option Nat
  /-- `start_action.isEnabled()` -/
  start_enabled : Bool
  /-- `stop_action.isEnabled()` -/
  stop_enabled : Bool
  tray_icon : TrayIcon
  tooltip : String
  /-- `self.break_dialog` -/
  break_dialog : Option BreakDialogState
  /-- old dialog objects kept alive only by a pending singleShot -/
  leaked : List BreakDialogState
  debug_mode : Bool
deriving DecidableEq, Repr

/-- `TwentyTwentyApp.__init__` and `setup_tray` (src/twentytwenty.py:24-109):
timer not running, 20 minutes remaining, main timer created but not
started, start action enabled, stop action disabled, idle icon showing 20. -/
def initState (debug : Bool) : AppState :=
  { timer_running := false
    minutes_remaining := 20
    main_timer_interval := none
    start_enabled := true
    stop_enabled := false
    tray_icon := create_tray_icon false 20
    tooltip := "20-20-20 Eye Break Timer"
    break_dialog := none
    leaked := []
    debug_mode := debug }

/-- `TwentyTwentyApp.update_tray_icon` (src/twentytwenty.py:162-165). -/
def update_tray_icon (s : AppState) (minutes : Int) : AppState :=
  { s with tray_icon := create_tray_icon s.timer_running minutes
           tooltip := "20-20-20 Timer: " ++ toString minutes ++ " minutes remaining" }

/-- `TwentyTwentyApp.start_timer` (src/twentytwenty.py:117-134). -/
def start_timer (s : AppState) : AppState :=
  let s := { s with timer_running := true, minutes_remaining := 20 }
  let s := { s with main_timer_interval :=
                      some (if s.debug_mode then 1000 else 60000) }
  let s := { s with start_enabled := false, stop_enabled := true }
  update_tray_icon s 20

/-- `TwentyTwentyApp.stop_timer` (src/twentytwenty.py:136-145). -/
def stop_timer (s : AppState) : AppState :=
  let s := { s with timer_running := false
                    main_timer_interval := none
                    minutes_remaining := 20 }
  let s := { s with start_enabled := true, stop_enabled := false }
  update_tray_icon s 20

/-- `TwentyTwentyApp.show_break_notification` (src/twentytwenty.py:167-172):
`self.break_dialog = BreakDialog()`. The right-hand side constructs the new
dialog, then the assignment drops the previous reference: the old object is
destroyed immediately unless a pending `singleShot` slot still references
it, in which case it stays alive unreferenced (`leaked`). -/
def show_break_notification (s : AppState) : AppState :=
  let leaked :=
    match s.break_dialog with
    | some d => if d.pending_accept_in.isSome then s.leaked ++ [d] else s.leaked
    | none => s.leaked
  { s with break_dialog := some newBreakDialog, leaked := leaked }

/-- `TwentyTwentyApp.timer_tick` (src/twentytwenty.py:147-160). The
`timer_update` emission synchronously runs `update_tray_icon` (connected at
src/twentytwenty.py:30) while `timer_running` is still true; the
`break_time` emission synchronously runs `show_break_notification`
(connected at src/twentytwenty.py:29). -/
def timer_tick (s : AppState) : AppState × List Event :=
  if !s.timer_running then (s, [])
  else
    let m := s.minutes_remaining - 1
    let s := { s with minutes_remaining := m }
    let s := update_tray_icon s m
    if m ≤ 0 then
      let s := { s with timer_running := false, main_timer_interval := none }
      (show_break_notification s,
       [Event.timer_update m, Event.break_time, Event.dialog_created])
    else
      (s, [Event.timer_update m])

/-- `TwentyTwentyApp.break_finished` (src/twentytwenty.py:174-178), the slot
connected to the break dialog's `finished` signal. -/
def break_finished (s : AppState) : AppState :=
  let s := { s with start_enabled := true, stop_enabled := false }
  update_tray_icon s 20

/-- Clicking the dialog's done button (connected to `self.accept` at
src/twentytwenty.py:225): `accept` hides the dialog and emits `finished`,
which synchronously runs `break_finished`. -/
def dialog_accept (s : AppState) : AppState :=
  match s.break_dialog with
  | some d => break_finished { s with break_dialog := some (accept d) }
  | none => s

/-- One second of wall-clock time for all live dialog objects: the
referenced dialog and any leaked dialogs advance; every `singleShot` that
fires calls `accept` on its dialog and so emits `finished`, running
`break_finished`. A leaked dialog whose `singleShot` has fired loses its
last reference and is destroyed. -/
def dialogSecond (s : AppState) : AppState × List Event :=
  let main := s.break_dialog.map dialogStepF
  let bd := main.map Prod.fst
  let fired1 := (main.map Prod.snd).getD false
  let steppedLeaked := s.leaked.map dialogStepF
  let fired2 := steppedLeaked.any Prod.snd
  let leaked := (steppedLeaked.filter (fun p => !p.2)).map Prod.fst
  let s1 := { s with break_dialog := bd, leaked := leaked }
  let s2 := if fired1 then break_finished s1 else s1
  let s3 := if fired2 then break_finished s2 else s2
  (s3, (if fired1 then [Event.finished] else [])
        ++ (if fired2 then [Event.finished] else []))

/-- The external events that can drive the application: the user clicking
the tray menu actions or the dialog's done button, the main timer firing,
and one second of wall-clock time for the dialog timers. -/
inductive Action where
  | clickStart
  | clickStop
  | mainTick
  | second
  | doneEarly
deriving DecidableEq, Repr

/-- One event-loop dispatch. A disabled `QAction` cannot be triggered (the
menu entry is grayed out), the main timer only fires while started, and
the done button can only be clicked while the dialog is shown. The
dialog's `setModal(True)` does not block the tray context menu: Qt
exempts popup windows from application-modal input blocking, so the tray
actions stay clickable while the break dialog is open. -/
def step (s : AppState) (a : Action) : AppState × List Event :=
  match a with
  | Action.clickStart =>
      if s.start_enabled then (start_timer s, []) else (s, [])
  | Action.clickStop =>
      if s.stop_enabled then (stop_timer s, []) else (s, [])
  | Action.mainTick =>
      if s.main_timer_interval.isSome then timer_tick s else (s, [])
  | Action.second => dialogSecond s
  | Action.doneEarly =>
      match s.break_dialog with
      | some d => if !d.closed then (dialog_accept s, [Event.finished]) else (s, [])
      | none => (s, [])

/-- Run a sequence of events, collecting all emissions. -/
def runActs : AppState → List Action → AppState × List Event
  | s, [] => (s, [])
  | s, a :: rest =>
      let r := step s a
      let r2 := runActs r.1 rest
      (r2.1, r.2 ++ r2.2)

/-- The logical (debug-independent) part of the application state: the
main timer interval is abstracted to whether the timer is running, and the
debug flag is dropped. -/
structure LogicalState where
  timer_running : Bool
  minutes_remaining : Int
  timer_active : Bool
  start_enabled : Bool
  stop_enabled : Bool
  tray_icon : TrayIcon
  tooltip : String
  break_dialog : Option BreakDialogState
  leaked : List BreakDialogState
deriving DecidableEq, Repr

/-- Projection of the full state onto its logical part. -/
def erase (s : AppState) : LogicalState :=
  { timer_running := s.timer_running
    minutes_remaining := s.minutes_remaining
    timer_active := s.main_timer_interval.isSome
    start_enabled := s.start_enabled
    stop_enabled := s.stop_enabled
    tray_icon := s.tray_icon
    tooltip := s.tooltip
    break_dialog := s.break_dialog
    leaked := s.leaked }

/-- C2: for every minutes_remaining in [0, 20], the icon pen colour is
gray when the timer is not running, and when running it is green for
minutes_remaining > 10, orange for 6 ≤ minutes_remaining ≤ 10, and red for
minutes_remaining ≤ 5. The rendering is a pure function of
(running, minutes_remaining): `create_tray_icon` reads nothing else. -/
theorem icon_color_classification (m : Int) (h0 : 0 ≤ m) (h20 : m ≤ 20) :
    (create_tray_icon false m).pen = grayText
    ∧ (m > 10 → (create_tray_icon true m).pen = greenText)
    ∧ (6 ≤ m → m ≤ 10 → (create_tray_icon true m).pen = orangeText)
    ∧ (m ≤ 5 → (create_tray_icon true m).pen = redText) := by
  refine ⟨rfl, ?_, ?_, ?_⟩
  · intro h
    have h5 : ¬ (m ≤ 5) := by omega
    have h10 : ¬ (m ≤ 10) := by omega
    simp [create_tray_icon, h5, h10]
  · intro h6 h10
    have h5 : ¬ (m ≤ 5) := by omega
    simp [create_tray_icon, h5, h10]
  · intro h
    simp [create_tray_icon, h]

/-- Witness for C2 at minutes_remaining = 7. -/
theorem icon_color_classification_witness :
    (create_tray_icon false 7).pen = grayText
    ∧ ((7 : Int) > 10 → (create_tray_icon true 7).pen = greenText)
    ∧ ((6 : Int) ≤ 7 → (7 : Int) ≤ 10 → (create_tray_icon true 7).pen = orangeText)
    ∧ ((7 : Int) ≤ 5 → (create_tray_icon true 7).pen = redText) :=
  icon_color_classification 7 (by decide) (by decide)

/-- C3: every call to `start_timer` sets the state to Running, resets
minutes_remaining to 20, starts the periodic tick with interval 1000 ms in
debug mode and 60000 ms otherwise, disables the start action, enables the
stop action (so exactly one of start/stop is enabled), and updates the
icon to the running icon for 20 minutes. -/
theorem start_timer_spec (s : AppState) :
    (start_timer s).timer_running = true
    ∧ (start_timer s).minutes_remaining = 20
    ∧ (start_timer s).main_timer_interval
        = some (if s.debug_mode then 1000 else 60000)
    ∧ (start_timer s).start_enabled = false
    ∧ (start_timer s).stop_enabled = true
    ∧ (start_timer s).start_enabled ≠ (start_timer s).stop_enabled
    ∧ (start_timer s).tray_icon = create_tray_icon true 20 := by
  simp [start_timer, update_tray_icon]

/-- C4: calling `timer_tick` while the controller is Idle
(timer_running = false) changes nothing at all and emits no signal. -/
theorem timer_tick_idle_noop (s : AppState) (h : s.timer_running = false) :
    timer_tick s = (s, []) := by
  simp [timer_tick, h]

/-- Witness for C4 at the initial state. -/
theorem timer_tick_idle_noop_witness :
    timer_tick (initState false) = (initState false, []) :=
  timer_tick_idle_noop (initState false) rfl

/-- C1: one `timer_tick` in state Running with minutes_remaining = 1 sets
minutes_remaining to 0, transitions to Idle, stops the periodic tick, and
emits exactly one break-start signal, which creates exactly one
`BreakDialog` (freshly constructed). -/
theorem timer_tick_last_minute (s : AppState)
    (hrun : s.timer_running = true) (hm : s.minutes_remaining = 1) :
    (timer_tick s).1.minutes_remaining = 0
    ∧ (timer_tick s).1.timer_running = false
    ∧ (timer_tick s).1.main_timer_interval = none
    ∧ (timer_tick s).2.count Event.break_time = 1
    ∧ (timer_tick s).2.count Event.dialog_created = 1
    ∧ (timer_tick s).1.break_dialog = some newBreakDialog := by
  simp [timer_tick, hrun, hm, show_break_notification, update_tray_icon,
    List.count_cons]

/-- Witness for C1: a Running state with one minute remaining. -/
theorem timer_tick_last_minute_witness :
    (timer_tick { initState false with
                    timer_running := true
                    minutes_remaining := 1
                    main_timer_interval := some 60000 }).1.minutes_remaining = 0
    ∧ (timer_tick { initState false with
                      timer_running := true
                      minutes_remaining := 1
                      main_timer_interval := some 60000 }).1.timer_running = false
    ∧ (timer_tick { initState false with
                      timer_running := true
                      minutes_remaining := 1
                      main_timer_interval := some 60000 }).1.main_timer_interval = none
    ∧ (timer_tick { initState false with
                      timer_running := true
                      minutes_remaining := 1
                      main_timer_interval := some 60000 }).2.count Event.break_time = 1
    ∧ (timer_tick { initState false with
                      timer_running := true
                      minutes_remaining := 1
                      main_timer_interval := some 60000 }).2.count Event.dialog_created = 1
    ∧ (timer_tick { initState false with
                      timer_running := true
                      minutes_remaining := 1
                      main_timer_interval := some 60000 }).1.break_dialog
        = some newBreakDialog :=
  timer_tick_last_minute _ rfl rfl

/-- C5: from a freshly constructed break dialog, each of the first 19
countdown ticks decrements seconds_remaining and sets the label to
"N seconds remaining"; the 20th tick reaches 0, stops the countdown timer
and shows "Break complete!" with the dialog still open; the dialog is
still open one second later and auto-closes at the end of the 2-second
grace period, i.e. within 2 further ticks. -/
theorem break_countdown_spec (k : Nat) (h1 : 1 ≤ k) (h2 : k ≤ 19) :
    ((dialogStepN k newBreakDialog).seconds_remaining = 20 - (k : Int)
     ∧ (dialogStepN k newBreakDialog).countdown_label
         = toString (20 - (k : Int)) ++ " seconds remaining"
     ∧ (dialogStepN k newBreakDialog).countdown_active = true
     ∧ (dialogStepN k newBreakDialog).closed = false)
    ∧ (dialogStepN 20 newBreakDialog).seconds_remaining = 0
    ∧ (dialogStepN 20 newBreakDialog).countdown_active = false
    ∧ (dialogStepN 20 newBreakDialog).countdown_label = "Break complete!"
    ∧ (dialogStepN 20 newBreakDialog).closed = false
    ∧ (dialogStepN 21 newBreakDialog).closed = false
    ∧ (dialogStepN 22 newBreakDialog).closed = true := by
  refine ⟨?_, by decide, by decide, by decide, by decide, by decide, by decide⟩
  have hd : ∀ j : Nat, j < 20 → 1 ≤ j →
      ((dialogStepN j newBreakDialog).seconds_remaining = 20 - (j : Int)
       ∧ (dialogStepN j newBreakDialog).countdown_label
           = toString (20 - (j : Int)) ++ " seconds remaining"
       ∧ (dialogStepN j newBreakDialog).countdown_active = true
       ∧ (dialogStepN j newBreakDialog).closed = false) := by decide
  exact hd k (by omega) h1

/-- Witness for C5 at tick 5. -/
theorem break_countdown_spec_witness :
    (((dialogStepN 5 newBreakDialog).seconds_remaining = 20 - ((5 : Nat) : Int)
     ∧ (dialogStepN 5 newBreakDialog).countdown_label
         = toString (20 - ((5 : Nat) : Int)) ++ " seconds remaining"
     ∧ (dialogStepN 5 newBreakDialog).countdown_active = true
     ∧ (dialogStepN 5 newBreakDialog).closed = false)
    ∧ (dialogStepN 20 newBreakDialog).seconds_remaining = 0
    ∧ (dialogStepN 20 newBreakDialog).countdown_active = false
    ∧ (dialogStepN 20 newBreakDialog).countdown_label = "Break complete!"
    ∧ (dialogStepN 20 newBreakDialog).closed = false
    ∧ (dialogStepN 21 newBreakDialog).closed = false
    ∧ (dialogStepN 22 newBreakDialog).closed = true) :=
  break_countdown_spec 5 (by decide) (by decide)

/-- C6 counterexample: early dismissal (clicking "Done Early", which runs
`accept`) closes the dialog but leaves the countdown timer running, and
the very next second decrements seconds_remaining from 20 to 19 — so it is
false that every close cancels the countdown timer. -/
theorem early_dismiss_leaves_timer_counterexample :
    (accept newBreakDialog).closed = true
    ∧ (accept newBreakDialog).countdown_active = true
    ∧ (accept newBreakDialog).seconds_remaining = 20
    ∧ (dialogStep (accept newBreakDialog)).seconds_remaining = 19 := by
  decide

/-- C6 amended: the auto-close path does cancel the countdown timer
(`countdown_tick` stops it at 0, before the dialog closes at tick 22), and
once the countdown timer is stopped it never fires again and
seconds_remaining is never decremented again; early dismissal, however,
closes the dialog without cancelling the countdown timer. -/
theorem countdown_cancellation_amended (d : BreakDialogState) (n : Nat)
    (h : d.countdown_active = false) :
    ((dialogStepN n d).countdown_active = false
     ∧ (dialogStepN n d).seconds_remaining = d.seconds_remaining)
    ∧ ((dialogStepN 20 newBreakDialog).countdown_active = false
       ∧ (dialogStepN 20 newBreakDialog).closed = false
       ∧ (dialogStepN 22 newBreakDialog).closed = true)
    ∧ (accept newBreakDialog).countdown_active = true := by
  refine ⟨?_, by decide, by decide⟩
  induction n generalizing d with
  | zero => exact ⟨h, rfl⟩
  | succ n ih =>
      have hstep : (dialogStep d).countdown_active = false
          ∧ (dialogStep d).seconds_remaining = d.seconds_remaining := by
        unfold dialogStep dialogStepF stepPending
        rcases hp : d.pending_accept_in with _ | (_ | (_ | m)) <;>
          simp [hp, h, accept]
      have := ih (dialogStep d) hstep.1
      exact ⟨by simpa [dialogStepN] using this.1,
             by rw [dialogStepN]; rw [this.2, hstep.2]⟩

/-- Witness for C6 amended: the completed dialog after 20 ticks, stepped
3 further seconds, keeps seconds_remaining at 0. -/
theorem countdown_cancellation_amended_witness :
    (((dialogStepN 3 (dialogStepN 20 newBreakDialog)).countdown_active = false
     ∧ (dialogStepN 3 (dialogStepN 20 newBreakDialog)).seconds_remaining
         = (dialogStepN 20 newBreakDialog).seconds_remaining)
    ∧ ((dialogStepN 20 newBreakDialog).countdown_active = false
       ∧ (dialogStepN 20 newBreakDialog).closed = false
       ∧ (dialogStepN 22 newBreakDialog).closed = true)
    ∧ (accept newBreakDialog).countdown_active = true) :=
  countdown_cancellation_amended (dialogStepN 20 newBreakDialog) 3 (by decide)

/-- C9: after the countdown completes the done button reads
"Start Next Timer", but clicking it only runs `accept` and the `finished`
handler: the dialog closes, the start action is re-enabled, and the main
timer stays Idle and stopped with minutes_remaining untouched — `start_timer`
is not called. -/
theorem next_timer_button_only_closes (s : AppState) (d : BreakDialogState)
    (hbd : s.break_dialog = some d)
    (hrun : s.timer_running = false)
    (hint : s.main_timer_interval = none) :
    (dialogStepN 20 newBreakDialog).done_button_text = "Start Next Timer"
    ∧ (dialog_accept s).break_dialog = some (accept d)
    ∧ (accept d).closed = true
    ∧ (dialog_accept s).timer_running = false
    ∧ (dialog_accept s).main_timer_interval = none
    ∧ (dialog_accept s).minutes_remaining = s.minutes_remaining
    ∧ (dialog_accept s).start_enabled = true
    ∧ (dialog_accept s).stop_enabled = false := by
  refine ⟨by decide, ?_⟩
  simp [dialog_accept, hbd, break_finished, update_tray_icon, hrun, hint, accept]

/-- Witness for C9: the state right after the break dialog was spawned. -/
theorem next_timer_button_only_closes_witness :
    ((dialogStepN 20 newBreakDialog).done_button_text = "Start Next Timer"
    ∧ (dialog_accept { initState false with
          break_dialog := some (dialogStepN 20 newBreakDialog) }).break_dialog
        = some (accept (dialogStepN 20 newBreakDialog))
    ∧ (accept (dialogStepN 20 newBreakDialog)).closed = true
    ∧ (dialog_accept { initState false with
          break_dialog := some (dialogStepN 20 newBreakDialog) }).timer_running = false
    ∧ (dialog_accept { initState false with
          break_dialog := some (dialogStepN 20 newBreakDialog) }).main_timer_interval
        = none
    ∧ (dialog_accept { initState false with
          break_dialog := some (dialogStepN 20 newBreakDialog) }).minutes_remaining
        = ({ initState false with
              break_dialog := some (dialogStepN 20 newBreakDialog) } : AppState).minutes_remaining
    ∧ (dialog_accept { initState false with
          break_dialog := some (dialogStepN 20 newBreakDialog) }).start_enabled = true
    ∧ (dialog_accept { initState false with
          break_dialog := some (dialogStepN 20 newBreakDialog) }).stop_enabled = false) :=
  next_timer_button_only_closes _ _ rfl rfl rfl

/-- C10: `break_finished` re-enables the start action, disables the stop
action and renders the idle icon showing "20", but leaves
minutes_remaining unchanged; and none of the break-path operations
(`break_finished`, `show_break_notification`, `update_tray_icon`,
`dialog_accept`, the dialog-second step) ever writes minutes_remaining —
only `start_timer`, `stop_timer` and `timer_tick` do. -/
theorem break_finished_frame (s : AppState) (m : Int)
    (h : s.timer_running = false) :
    (break_finished s).minutes_remaining = s.minutes_remaining
    ∧ (break_finished s).start_enabled = true
    ∧ (break_finished s).stop_enabled = false
    ∧ (break_finished s).tray_icon = create_tray_icon false 20
    ∧ (break_finished s).tray_icon.text = "20"
    ∧ (show_break_notification s).minutes_remaining = s.minutes_remaining
    ∧ (update_tray_icon s m).minutes_remaining = s.minutes_remaining
    ∧ (dialog_accept s).minutes_remaining = s.minutes_remaining
    ∧ (dialogSecond s).1.minutes_remaining = s.minutes_remaining := by
  refine ⟨rfl, rfl, rfl, ?_, ?_, ?_, rfl, ?_, ?_⟩
  · simp [break_finished, update_tray_icon, h]
  · simp [break_finished, update_tray_icon, h]
    decide
  · simp [show_break_notification]
  · cases hbd : s.break_dialog <;>
      simp [dialog_accept, hbd, break_finished, update_tray_icon]
  · simp only [dialogSecond]
    split_ifs <;> rfl

/-- Witness for C10 at the post-break state (Idle, 0 minutes remaining). -/
theorem break_finished_frame_witness :
    ((break_finished { initState false with minutes_remaining := 0 }).minutes_remaining
        = ({ initState false with minutes_remaining := 0 } : AppState).minutes_remaining
    ∧ (break_finished { initState false with minutes_remaining := 0 }).start_enabled = true
    ∧ (break_finished { initState false with minutes_remaining := 0 }).stop_enabled = false
    ∧ (break_finished { initState false with minutes_remaining := 0 }).tray_icon
        = create_tray_icon false 20
    ∧ (break_finished { initState false with minutes_remaining := 0 }).tray_icon.text = "20"
    ∧ (show_break_notification { initState false with
          minutes_remaining := 0 }).minutes_remaining
        = ({ initState false with minutes_remaining := 0 } : AppState).minutes_remaining
    ∧ (update_tray_icon { initState false with minutes_remaining := 0 } 3).minutes_remaining
        = ({ initState false with minutes_remaining := 0 } : AppState).minutes_remaining
    ∧ (dialog_accept { initState false with minutes_remaining := 0 }).minutes_remaining
        = ({ initState false with minutes_remaining := 0 } : AppState).minutes_remaining
    ∧ (dialogSecond { initState false with minutes_remaining := 0 }).1.minutes_remaining
        = ({ initState false with minutes_remaining := 0 } : AppState).minutes_remaining) :=
  break_finished_frame { initState false with minutes_remaining := 0 } 3 rfl

/-- The dialog-second step never touches the main timer. -/
theorem dialogSecond_interval (s : AppState) :
    (dialogSecond s).1.main_timer_interval = s.main_timer_interval := by
  simp only [dialogSecond]
  split_ifs <;> simp [break_finished, update_tray_icon]

/-- Accepting a dialog changes only its closed flag. -/
theorem accept_fields (d : BreakDialogState) :
    (accept d).pending_accept_in = d.pending_accept_in
    ∧ (accept d).seconds_remaining = d.seconds_remaining
    ∧ (accept d).countdown_active = d.countdown_active :=
  ⟨rfl, rfl, rfl⟩

set_option maxRecDepth 8000

/-- One dispatch step preserves agreement of the logical projection and
produces the same emissions: the debug flag and the stored interval value
never influence the logical state or the signals. -/
theorem step_respects_erase (s t : AppState) (a : Action) (h : erase s = erase t) :
    erase (step s a).1 = erase (step t a).1 ∧ (step s a).2 = (step t a).2 := by
  obtain ⟨r1, m1, i1, sa1, so1, ic1, tt1, bd1, lk1, dbg1⟩ := s
  obtain ⟨r2, m2, i2, sa2, so2, ic2, tt2, bd2, lk2, dbg2⟩ := t
  simp only [erase, LogicalState.mk.injEq] at h
  obtain ⟨e1, e2, e3, e4, e5, e6, e7, e8, e9⟩ := h
  subst e1
  subst e2
  subst e4
  subst e5
  subst e6
  subst e7
  subst e8
  subst e9
  cases a with
  | clickStart =>
      simp only [step, start_timer, update_tray_icon]
      split_ifs <;> simp_all [erase, e3]
  | clickStop =>
      simp only [step, stop_timer, update_tray_icon]
      split_ifs <;> simp_all [erase, e3]
  | mainTick =>
      simp only [step, timer_tick, update_tray_icon, show_break_notification,
        e3]
      split_ifs <;> simp_all [erase, e3]
  | second =>
      simp only [step, dialogSecond, break_finished, update_tray_icon]
      split_ifs <;> simp_all [erase, e3]
  | doneEarly =>
      rcases bd1 with _ | d
      · simp [step, erase, e3]
      · simp only [step, dialog_accept, break_finished, update_tray_icon]
        split_ifs <;> simp_all [erase, e3]

/-- Running any event sequence from logically equal states yields
logically equal states and identical emission logs. -/
theorem runActs_respects_erase (acts : List Action) (s t : AppState)
    (h : erase s = erase t) :
    erase (runActs s acts).1 = erase (runActs t acts).1
    ∧ (runActs s acts).2 = (runActs t acts).2 := by
  induction acts generalizing s t with
  | nil => exact ⟨h, rfl⟩
  | cons a rest ih =>
      obtain ⟨h1, h2⟩ := step_respects_erase s t a h
      obtain ⟨h3, h4⟩ := ih (step s a).1 (step t a).1 h1
      exact ⟨by simpa [runActs] using h3, by simp [runActs, h2, h4]⟩

/-- C8: two runs differing only in the --debug flag produce identical
logical behaviour for the same event sequence — the same state
transitions, minutes_remaining, action enablement, icon, tooltip, dialog
states and signal emissions; the flag influences only the stored tick
interval (1000 ms vs 60000 ms) and, outside this model, log verbosity. -/
theorem debug_non_interference (acts : List Action) :
    erase (runActs (initState true) acts).1
      = erase (runActs (initState false) acts).1
    ∧ (runActs (initState true) acts).2 = (runActs (initState false) acts).2 :=
  runActs_respects_erase acts (initState true) (initState false) rfl

end TwentyTwenty
